import Mathlib

/-!
# Verification of the Agano concurrency-safety primitives

Shallow embedding of `agano/include/agano.hpp`:

* `ThreadBound<T>` — a guard that owns a payload and a (lazily bound)
  owning-thread identity, from lines 105–212 of the header.
* the capability traits `send_tag_v` / `Send` / `Sync` / `Mutex`,
  lines 14–28 and 224–234.
* `Synced<T, M>` / `Locked<T, M>` — the lock owner and its scoped guard,
  lines 30–92.

Conventions of the embedding:

* A thread identity (`std::thread::id`) is `Option Nat`: `some n` is the id
  of a running thread, `none` is the default-constructed sentinel
  (`ThreadBound<T>::unbound`).  Real calling threads always have `some` ids.
* `std::this_thread::get_id()` becomes an explicit parameter `cur : Nat`
  of every member function that reads it.
* A member function is a function from the object's state to a pair of
  (result, state of the object after the call); constructors taking another
  guard return (constructed object, state of the argument after the call).
* The fatal report macro `EH_PANIC` lives in `fuwa/assert.hpp`, which is not
  part of this repository's sources; following the spec it is a fatal,
  non-returning report, so a validated access returns `Except`: `.error`
  carries the data handed to the report and grants no access.
-/

namespace Agano

/-- Thread identities: `some n` is the id of a real thread, `none` is the
default-constructed `std::thread::id{}` sentinel. -/
abbrev TId := Option Nat

/-- `ThreadBound<T>::unbound`, the default-constructed thread id (line 212). -/
def unbound : TId := none

/-- `ThreadBound<T>` (header lines 105–212): owns `object : T` and a mutable
`owner_id` that is either the `unbound` sentinel or one thread's identity. -/
structure ThreadBound (T : Type) where
  object : T
  owner_id : TId
deriving DecidableEq, Repr

namespace ThreadBound

variable {T : Type}

/-- `is_unbound()` (lines 181–183): `owner_id == unbound`. -/
def is_unbound (tb : ThreadBound T) : Bool :=
  tb.owner_id == unbound

/-- `get_owner_id()` (lines 185–187): returns `owner_id`. -/
def get_owner_id (tb : ThreadBound T) : TId :=
  tb.owner_id

/-- `get_owner_id_(rhs)` (lines 202–208): `unbound` if `rhs` is unbound,
otherwise `std::this_thread::get_id()` — the CURRENT thread `cur`, not
`rhs.owner_id`. -/
def get_owner_id_ (cur : Nat) (rhs : ThreadBound T) : TId :=
  if rhs.is_unbound then unbound else some cur

/-- `ThreadBound(T&&)` (lines 114–117): binds to the constructing thread. -/
def bindingCtor (cur : Nat) (obj : T) : ThreadBound T :=
  { object := obj, owner_id := some cur }

/-- `ThreadBound(DeferBindingTag, T&&)` (lines 119–121): `owner_id` stays
default-constructed, i.e. `unbound`. -/
def deferredCtor (obj : T) : ThreadBound T :=
  { object := obj, owner_id := unbound }

/-- `ThreadBound(const ThreadBound&)` (lines 123–126): copies the payload and
sets `owner_id` to `get_owner_id_(rhs)`.  The body performs no write to the
`const&` argument, so the second component (the source after the call) is the
source unchanged. -/
def copyCtor (cur : Nat) (rhs : ThreadBound T) : ThreadBound T × ThreadBound T :=
  ({ object := rhs.object, owner_id := get_owner_id_ cur rhs }, rhs)

/-- `ThreadBound(ThreadBound&&)` (lines 139–144): moves the payload, sets the
new `owner_id` to `get_owner_id_(rhs)`, then resets `rhs.owner_id` to
`unbound`.  `mv` models the payload type's own move constructor: the source's
payload is left at `mv rhs.object` (its moved-from state). -/
def moveCtor (cur : Nat) (mv : T → T) (rhs : ThreadBound T) :
    ThreadBound T × ThreadBound T :=
  ({ object := rhs.object, owner_id := get_owner_id_ cur rhs },
   { object := mv rhs.object, owner_id := unbound })

/-- `validate_()` (lines 190–200): if unbound, bind `owner_id` (a `mutable`
field, written even from this `const` path) to the current thread; else if the
current thread differs from `owner_id`, `EH_PANIC` with a message holding both
identities.  Modelled from the spec: `EH_PANIC` (from `fuwa/assert.hpp`, absent
from the sources) is a fatal report that terminates the operation; `.error`
carries the pair (recorded owner, calling thread) that the code formats into
the message. -/
def validate_ (cur : Nat) (tb : ThreadBound T) :
    Except (TId × Nat) (ThreadBound T) :=
  if tb.is_unbound then
    .ok { tb with owner_id := some cur }
  else if some cur != tb.owner_id then
    .error (tb.owner_id, cur)
  else
    .ok tb

/-- `operator*` (lines 161–164 and 171–174): `validate_()` then return the
payload (by reference; here, the payload together with the post state). -/
def deref (cur : Nat) (tb : ThreadBound T) :
    Except (TId × Nat) (T × ThreadBound T) :=
  match validate_ cur tb with
  | .error e => .error e
  | .ok tb' => .ok (tb'.object, tb')

/-- `operator->` (lines 166–169 and 176–179): `validate_()` then return the
payload's address; in the embedding the same access as `deref`. -/
def memberAccess (cur : Nat) (tb : ThreadBound T) :
    Except (TId × Nat) (T × ThreadBound T) :=
  match validate_ cur tb with
  | .error e => .error e
  | .ok tb' => .ok (tb'.object, tb')

/-- A call of `is_unbound()` as (result, object state after the call): the
body (line 182) only reads `owner_id`. -/
def callIsUnbound (tb : ThreadBound T) : Bool × ThreadBound T :=
  (tb.is_unbound, tb)

/-- A call of `get_owner_id()` as (result, object state after the call): the
body (line 186) only reads `owner_id`. -/
def callGetOwnerId (tb : ThreadBound T) : TId × ThreadBound T :=
  (tb.get_owner_id, tb)

end ThreadBound

/-! ## Theorems about the thread-bound guard -/

variable {T : Type}

/-- C1 counterexample: the move law as stated is false.  A guard holding 42
bound to thread 0, move-constructed from on thread 1, yields a guard bound to
thread 1 — not to the prior owner, thread 0 (the move constructor routes
through `get_owner_id_`, which rebinds to the current thread; the repository's
own test `test1` in `example.cpp` asserts exactly this rebinding). -/
theorem threadBound_move_preserves_owner_cex :
    (ThreadBound.moveCtor 1 id ⟨(42 : Nat), some 0⟩).1.owner_id = some 1 ∧
    (⟨(42 : Nat), some 0⟩ : ThreadBound Nat).owner_id = some 0 ∧
    some 1 ≠ (some 0 : TId) := by
  refine ⟨rfl, rfl, by decide⟩

/-- C1 (amended): move-constructing from a guard `g` on thread `cur` yields a
new guard that is unbound if `g` was unbound and otherwise is bound to `cur`,
the thread performing the move (not necessarily `g`'s prior owner); afterwards
the source is unbound and its payload is in the moved-from state. -/
theorem threadBound_move_law (cur : Nat) (mv : T → T) (g : ThreadBound T) :
    (ThreadBound.moveCtor cur mv g).1.owner_id
        = (if g.is_unbound then unbound else some cur) ∧
    (ThreadBound.moveCtor cur mv g).1.object = g.object ∧
    (ThreadBound.moveCtor cur mv g).2.is_unbound = true ∧
    (ThreadBound.moveCtor cur mv g).2.object = mv g.object := by
  refine ⟨rfl, rfl, ?_, rfl⟩
  simp [ThreadBound.moveCtor, ThreadBound.is_unbound, unbound]

/-- C2: every dereference / member access on thread `cur` first checks
ownership: an unbound guard binds to `cur` and hands out the payload; a guard
bound to `cur` hands out the payload unchanged; a guard bound to another
thread produces the fatal report carrying both the recorded owner identity
and the calling thread's identity, and grants no access. -/
theorem threadBound_access_semantics (cur : Nat) (tb : ThreadBound T) :
    ThreadBound.deref cur tb
        = (if tb.owner_id = unbound then
             Except.ok (tb.object, { tb with owner_id := some cur })
           else if tb.owner_id = some cur then
             Except.ok (tb.object, tb)
           else
             Except.error (tb.owner_id, cur)) ∧
    ThreadBound.memberAccess cur tb = ThreadBound.deref cur tb := by
  rcases tb with ⟨obj, oid⟩
  constructor
  · cases oid with
    | none =>
      simp [ThreadBound.deref, ThreadBound.validate_, ThreadBound.is_unbound,
        unbound]
    | some o =>
      by_cases h : cur = o
      · subst h
        simp [ThreadBound.deref, ThreadBound.validate_, ThreadBound.is_unbound,
          unbound]
      · have h' : ¬o = cur := fun hh => h hh.symm
        simp [ThreadBound.deref, ThreadBound.validate_, ThreadBound.is_unbound,
          unbound, h, h']
  · rfl

/-- C3: copy-constructing from `g` on thread `cur` yields a guard that is
unbound if `g` was unbound and otherwise is bound to `cur`, the copying
thread; the new payload is (a value copy of) `g`'s payload. -/
theorem threadBound_copy_law (cur : Nat) (g : ThreadBound T) :
    (ThreadBound.copyCtor cur g).1.owner_id
        = (if g.is_unbound then unbound else some cur) ∧
    (ThreadBound.copyCtor cur g).1.object = g.object := by
  exact ⟨rfl, rfl⟩

/-- C8: `is_unbound()` and `get_owner_id()` are pure observers — after either
call the guard's entire state (owner identity and payload alike) is exactly
what it was before, and the results are the current owner facts. -/
theorem threadBound_observers_pure (tb : ThreadBound T) :
    (ThreadBound.callIsUnbound tb).2 = tb ∧
    (ThreadBound.callGetOwnerId tb).2 = tb ∧
    (ThreadBound.callIsUnbound tb).1 = (tb.owner_id == unbound) ∧
    (ThreadBound.callGetOwnerId tb).1 = tb.owner_id := by
  exact ⟨rfl, rfl, rfl, rfl⟩

/-- C9: copy construction never modifies the source — the source guard after
the copy is exactly the source before it, whichever thread copies. -/
theorem threadBound_copy_preserves_source (cur : Nat) (g : ThreadBound T) :
    (ThreadBound.copyCtor cur g).2 = g := by
  exact rfl

/-! ## The capability classifier

A small universe of the C++ types the header's trait machinery is applied
to: `int` (registered at line 234), `float` (`f32` from `fuwa/types.hpp`,
movable but never registered), `std::mutex`, `Synced<T, M>`, and the
reference forms `T&` / `const T&` that the specializations at lines 224–231
and the `Sync` concept mention. -/

/-- C++ types, as far as the trait layer distinguishes them. -/
inductive Ty where
  | intT : Ty
  | floatT : Ty
  | stdMutex : Ty
  | synced : Ty → Ty → Ty
  | ref : Ty → Ty
  | constRef : Ty → Ty
deriving DecidableEq, Repr

/-- `std::remove_cvref_t`: strip a top-level reference and cv qualifier. -/
def remove_cvref : Ty → Ty
  | .ref t => t
  | .constRef t => t
  | t => t

/-- `std::movable`: `int` and `float` are movable; `std::mutex` is not;
`Synced` deletes its move (and copy) operations, lines 79–83; reference
types are not object types, so `std::movable` rejects them. -/
def movable : Ty → Bool
  | .intT => true
  | .floatT => true
  | _ => false

/-- The `Mutex` concept (lines 23–28): `lock()`, `unlock()` and a
`std::lock_guard` — satisfied by `std::mutex` alone in this universe
(`Synced` has `lock()` but no `unlock()`). -/
def isMutex : Ty → Bool
  | .stdMutex => true
  | _ => false

/-- The trait registry `send_tag_v` (lines 14–15, 224–234): `false` by
default; `true` for `int`; `true` for `Synced<T, M>`, `Synced<T, M>&` and
`const Synced<T, M>&` when the partial specialization's constraint
`Send T && Mutex M` holds.  The constraint's
`send_tag_v<remove_cvref_t<T>> && movable<remove_cvref_t<T>>` is inlined as
a nested match on `T` so the recursion is structural. -/
def send_tag_v : Ty → Bool
  | .intT => true
  | .synced a m =>
      (match a with
       | .ref b => send_tag_v b && movable b
       | .constRef b => send_tag_v b && movable b
       | b => send_tag_v b && movable b) && isMutex m
  | .ref (.synced a m) =>
      (match a with
       | .ref b => send_tag_v b && movable b
       | .constRef b => send_tag_v b && movable b
       | b => send_tag_v b && movable b) && isMutex m
  | .constRef (.synced a m) =>
      (match a with
       | .ref b => send_tag_v b && movable b
       | .constRef b => send_tag_v b && movable b
       | b => send_tag_v b && movable b) && isMutex m
  | _ => false

/-- The `Send` concept (lines 17–18):
`send_tag_v<remove_cvref_t<T>> && movable<remove_cvref_t<T>>`. -/
def Send (t : Ty) : Bool :=
  send_tag_v (remove_cvref t) && movable (remove_cvref t)

/-- The `Sync` concept (lines 20–21): `send_tag_v<const remove_cvref_t<T>&>`
— the raw registry entry of the const-reference view. -/
def Sync (t : Ty) : Bool :=
  send_tag_v (.constRef (remove_cvref t))

/-- The spec's reading of `Sync`: the const/shared view of `T` is itself
Transferable, i.e. the `Send` concept applied to `const T&`. -/
def SyncSpec (t : Ty) : Bool :=
  Send (.constRef (remove_cvref t))

/-- Helper: on `Synced<T, M>` the registry evaluates to the specialization's
constraint `Send T && Mutex M`. -/
theorem send_tag_v_synced (t m : Ty) :
    send_tag_v (.synced t m) = (Send t && isMutex m) := by
  cases t <;> rfl

/-- Helper: same for the `Synced<T, M>&` specialization. -/
theorem send_tag_v_ref_synced (t m : Ty) :
    send_tag_v (.ref (.synced t m)) = (Send t && isMutex m) := by
  cases t <;> rfl

/-- Helper: same for the `const Synced<T, M>&` specialization. -/
theorem send_tag_v_constRef_synced (t m : Ty) :
    send_tag_v (.constRef (.synced t m)) = (Send t && isMutex m) := by
  cases t <;> rfl

/-- C4 counterexample: `int` is `Send` and `std::mutex` is a `Mutex`, yet
`Synced<int, std::mutex>` does NOT satisfy the `Send` concept — `Send`
requires `std::movable`, and `Synced` deletes its move operations. -/
theorem synced_send_cex :
    Send .intT = true ∧ isMutex .stdMutex = true ∧
    Send (.synced .intT .stdMutex) = false := by
  refine ⟨rfl, rfl, rfl⟩

/-- C4 (amended): for `Send` payloads and `Mutex` mutexes the trait registry
entries on `Synced<T, M>` and its reference forms are `true`, but `Synced`
itself is not movable, so the full `Send` concept still fails on it; only
the registration — not `Send` membership — propagates outward. -/
theorem synced_send_tag_registered (t m : Ty)
    (ht : Send t = true) (hm : isMutex m = true) :
    send_tag_v (.synced t m) = true ∧
    send_tag_v (.ref (.synced t m)) = true ∧
    send_tag_v (.constRef (.synced t m)) = true ∧
    movable (.synced t m) = false ∧
    Send (.synced t m) = false := by
  refine ⟨?_, ?_, ?_, rfl, ?_⟩
  · rw [send_tag_v_synced, ht, hm]; rfl
  · rw [send_tag_v_ref_synced, ht, hm]; rfl
  · rw [send_tag_v_constRef_synced, ht, hm]; rfl
  · simp [Send, remove_cvref, movable]

/-- C4 witness: the amended statement at `T = int`, `M = std::mutex`. -/
theorem synced_send_tag_registered_witness :
    send_tag_v (.synced .intT .stdMutex) = true ∧
    send_tag_v (.ref (.synced .intT .stdMutex)) = true ∧
    send_tag_v (.constRef (.synced .intT .stdMutex)) = true ∧
    movable (.synced .intT .stdMutex) = false ∧
    Send (.synced .intT .stdMutex) = false :=
  synced_send_tag_registered .intT .stdMutex rfl rfl

/-- C5: `Send T` holds exactly when `T` (cv-ref stripped) is movable AND has
an explicit `send_tag_v` registration; the registry defaults to `false`, so a
movable type with no registration — `float` — is not `Send`. -/
theorem send_requires_explicit_opt_in (t : Ty) :
    (Send t = true ↔
      send_tag_v (remove_cvref t) = true ∧ movable (remove_cvref t) = true) ∧
    movable .floatT = true ∧
    send_tag_v .floatT = false ∧
    Send .floatT = false := by
  refine ⟨?_, rfl, rfl, rfl⟩
  simp [Send]

/-- C6 counterexample: `Sync` is not `Send` of the const-reference view.
`Send<const int&>` holds (`remove_cvref` strips the reference and `int` is
registered and movable), but `Sync<int>` is false — the concept consults the
raw registry entry of `const int&`, which was never specialized. -/
theorem sync_const_ref_cex :
    SyncSpec .intT = true ∧ Sync .intT = false := by
  refine ⟨rfl, rfl⟩

/-- C6 (amended): `Sync T` holds exactly when the const-reference view of
`T` has its own explicit `send_tag_v` registration; this differs from the
`Send` concept applied to `const T&` (which strips the reference and adds
movability).  The const-reference registrations exist only for the `Synced`
family, so `Sync` holds of `Synced<T, M>` (for `Send T`, `Mutex M`) and
fails on `int` even though `Send (const int&)` holds. -/
theorem sync_means_const_ref_registered (t u m : Ty)
    (hu : Send u = true) (hm : isMutex m = true) :
    (Sync t = true ↔ send_tag_v (.constRef (remove_cvref t)) = true) ∧
    Sync (.synced u m) = true ∧
    Sync .intT = false ∧
    SyncSpec .intT = true := by
  refine ⟨Iff.rfl, ?_, rfl, rfl⟩
  show send_tag_v (.constRef (.synced u m)) = true
  rw [send_tag_v_constRef_synced, hu, hm]
  rfl

/-- C6 witness: the amended statement at `t = float`, `u = int`,
`m = std::mutex`. -/
theorem sync_means_const_ref_registered_witness :
    (Sync .floatT = true ↔
      send_tag_v (.constRef (remove_cvref .floatT)) = true) ∧
    Sync (.synced .intT .stdMutex) = true ∧
    Sync .intT = false ∧
    SyncSpec .intT = true :=
  sync_means_const_ref_registered .floatT .intT .stdMutex rfl rfl

/-! ## The lock owner and its scoped guard

`Synced<T, M>` (lines 67–92) owns `mutex_ : M` and `owned_ : T`; `lock()`
returns `Locked{ owned_, mutex_ }` (line 89).  `Locked` (lines 30–65) holds
`ref_ : T&` and `lock_ : std::lock_guard<M>`; the `std::lock_guard` member is
constructed with the owner's mutex (acquiring it, completing only once the
mutex is free) and its destruction releases the mutex.  Two aspects are
embedded separately:

* the lifetime discipline of the guards over one owner, as a transition
  system (`MutexState` / `LockStep`); and
* the aliasing of the payload reference, as locations in a heap
  (`SyncedObj` / `LockedObj`).
-/

/-- An event over one `Synced` owner: thread `tid` constructs a `Locked`
guard (identified by `gid`), or destroys it. -/
inductive LockEvent where
  | acq (tid gid : Nat)
  | rel (tid gid : Nat)
deriving DecidableEq, Repr

/-- The observable state of one owner's mutex and guards: whether `mutex_`
is held, and which `Locked` objects over this owner are alive. -/
structure MutexState where
  held : Bool
  live : List Nat
deriving DecidableEq, Repr

/-- A fresh owner: mutex free, no guard alive. -/
def initMutexState : MutexState := ⟨false, []⟩

/-- One step of the owner's guard discipline.  `acq`: `Locked`'s
`std::lock_guard` member completes construction only when the mutex is free,
and then holds it.  `rel`: destroying a live guard runs the `lock_guard`
destructor, releasing the mutex. -/
inductive LockStep : MutexState → LockEvent → MutexState → Prop where
  | acq {s : MutexState} {tid gid : Nat} :
      s.held = false →
      LockStep s (.acq tid gid) ⟨true, gid :: s.live⟩
  | rel {s : MutexState} {tid gid : Nat} :
      gid ∈ s.live →
      LockStep s (.rel tid gid) ⟨false, s.live.erase gid⟩

/-- States reachable from a fresh owner by guard constructions and
destructions. -/
inductive Reach : MutexState → Prop where
  | init : Reach initMutexState
  | step {s s' : MutexState} {e : LockEvent} :
      Reach s → LockStep s e s' → Reach s'

/-- Every step preserves the count invariant: live guards number 1 while the
mutex is held and 0 otherwise. -/
theorem lockStep_preserves_count {s s' : MutexState} {e : LockEvent}
    (hst : LockStep s e s')
    (ih : s.live.length = (if s.held then 1 else 0)) :
    s'.live.length = (if s'.held then 1 else 0) := by
  cases hst with
  | acq hfree =>
    rw [hfree] at ih
    simp at ih
    simp [ih]
  | rel hmem =>
    have hne : s.live ≠ [] := List.ne_nil_of_mem hmem
    have hheld : s.held = true := by
      by_contra hh
      rw [Bool.not_eq_true] at hh
      rw [hh] at ih
      simp at ih
      exact hne ih
    rw [hheld] at ih
    simp at ih
    simp [List.length_erase_of_mem hmem, ih]

/-- Invariant: the number of live guards is 1 while the mutex is held and 0
otherwise. -/
theorem mutexState_live_length (s : MutexState) (h : Reach s) :
    s.live.length = (if s.held then 1 else 0) := by
  induction h with
  | init => rfl
  | step hr hs ih => exact lockStep_preserves_count hs ih

/-- C7: over any one owner, in every reachable state at most one `Locked`
guard is alive (so any two guards alive at the same instant are the same
guard — distinct guards' lifetimes are disjoint in time). -/
theorem locked_mutual_exclusion (s : MutexState) (h : Reach s) :
    s.live.length ≤ 1 ∧
    ∀ g1 g2 : Nat, g1 ∈ s.live → g2 ∈ s.live → g1 = g2 := by
  have hl := mutexState_live_length s h
  constructor
  · rw [hl]
    cases s.held <;> simp
  · intro g1 g2 h1 h2
    rcases hs : s.live with _ | ⟨a, rest⟩
    · rw [hs] at h1
      exact absurd h1 (List.not_mem_nil g1)
    · have hr : rest = [] := by
        have := hl
        rw [hs] at this
        cases hh : s.held <;> rw [hh] at this <;> simp at this
        exact this
      rw [hs, hr] at h1 h2
      simp at h1 h2
      rw [h1, h2]

/-- C7 witness: the state after one acquisition (thread 0 constructs guard 7
on a fresh owner) is reachable and satisfies mutual exclusion. -/
theorem locked_mutual_exclusion_witness :
    Reach ⟨true, [7]⟩ ∧ (⟨true, [7]⟩ : MutexState).live.length ≤ 1 :=
  have hre : Reach ⟨true, [7]⟩ :=
    Reach.step Reach.init (@LockStep.acq initMutexState 0 7 rfl)
  ⟨hre, (locked_mutual_exclusion ⟨true, [7]⟩ hre).1⟩

/-- The store of payload objects: a C++ object has an identity (its
location), and a `T&` is embedded as a location into this store. -/
def Heap (T : Type) : Type := Nat → T

/-- Read the object at location `l`. -/
def Heap.read (h : Heap T) (l : Nat) : T := h l

/-- Overwrite the object at location `l` (an assignment through a `T&`). -/
def Heap.write (h : Heap T) (l : Nat) (v : T) : Heap T :=
  fun l' => if l' = l then v else h l'

/-- A `Synced<T, M>` object: its single `owned_` member lives at a fixed
location (the mutex is covered by `MutexState` above). -/
structure SyncedObj where
  ownedLoc : Nat
deriving DecidableEq, Repr

/-- A `Locked<T, M>` object: `ref_` is the `T&` member. -/
structure LockedObj where
  ref_ : Nat
deriving DecidableEq, Repr

/-- `Synced::lock()` (lines 87–91): returns `Locked{ owned_, mutex_ }`, so
the guard's `ref_` is bound to the owner's `owned_` member itself. -/
def SyncedObj.lock (o : SyncedObj) : LockedObj :=
  { ref_ := o.ownedLoc }

/-- `Locked::operator*` / `operator->` (lines 50–64): return `ref_` with no
check — read the referenced object. -/
def LockedObj.deref (g : LockedObj) (h : Heap T) : T :=
  h.read g.ref_

/-- An assignment through `*guard` (the reference returned by lines 62–64). -/
def LockedObj.derefWrite (g : LockedObj) (v : T) (h : Heap T) : Heap T :=
  h.write g.ref_ v

/-- C10: a guard returned by `lock()` aliases the owner's stored payload —
its `ref_` IS the owner's `owned_` location, so a write through the guard is
visible at the owner's payload after the guard is gone and is read by every
subsequently acquired guard on the same owner. -/
theorem locked_guard_aliases_owner (T : Type) (o : SyncedObj) (h : Heap T)
    (v : T) :
    (o.lock).ref_ = o.ownedLoc ∧
    ((o.lock).derefWrite v h).read o.ownedLoc = v ∧
    (o.lock).deref ((o.lock).derefWrite v h) = v := by
  refine ⟨rfl, ?_, ?_⟩ <;>
    simp [SyncedObj.lock, LockedObj.deref, LockedObj.derefWrite, Heap.read,
      Heap.write]

end Agano
